import Mathlib

/-!
Shallow embedding of `edge/msghub/sdr2msghub/main.go`: the adaptive
sampling/scoring control loop of the sdr2msghub example.  Stations are keyed
by their frequency (a `float32` in Go, modelled here as `ℚ`); the goodness
map `map[float32]float32` is modelled as an association list with distinct
keys; Go `time.Duration` values are modelled as `Int` nanoseconds.
-/

namespace SDRMsghub

/-- The fixed whitelist of operation types, from `opIsSafe` in main.go. -/
def safeOPtypes : List String :=
  ["Const", "Placeholder", "Conv2D", "Cast", "Div", "StatelessRandomNormal",
   "ExpandDims", "AudioSpectrogram", "DecodeRaw", "Reshape", "MatMul", "Sum",
   "Softmax", "Squeeze", "RandomUniform", "Identity"]

/-- Function `opIsSafe` from main.go: linear scan of the whitelist. -/
def opIsSafe (a : String) : Bool :=
  safeOPtypes.any (fun b => b == a)

/-- Load-time errors of `newModel` in main.go: the whitelist rejection
(`errors.New("unsafe OPs")`, printed together with the set of offending op
types), and the two port-lookup failures. -/
inductive LoadErr where
  | badOPs (types : List String)
  | outputNotFound
  | inputNotFound
deriving DecidableEq, Repr

/-- The graph definition as `newModel` observes it after `graph.Import`:
the list of operation types plus whether the two named ports exist.
(The TensorFlow runtime itself is external to this repository.) -/
structure GraphDef where
  ops : List String
  hasOutput : Bool
  hasInput : Bool

/-- The distinct offending operation types collected by the loop in `newModel`
into the set `unsafeOPs : map[string]bool` (each offending type once). -/
def collectOffending (ops : List String) : List String :=
  (ops.filter (fun op => !(opIsSafe op))).dedup

/-- Function `newModel` from main.go, after the file read and graph import: reject the
graph when any op type is outside the whitelist (reporting the distinct
offending types), then look up the output and input ports in that order. -/
def newModel (g : GraphDef) : Except LoadErr Unit :=
  let bad := collectOffending g.ops
  if bad.isEmpty then
    if !g.hasOutput then .error .outputNotFound
    else if !g.hasInput then .error .inputNotFound
    else .ok ()
  else .error (.badOPs bad)

/-- Stations are keyed by frequency (`float32` in Go). -/
abbrev Station := ℚ

/-- The `stationGoodness : map[float32]float32` map, as an association list
whose keys are pairwise distinct (insertion only happens on absent keys). -/
abbrev GoodnessMap := List (Station × ℚ)

/-- Map lookup: `v, prs := stationGoodness[station]`. -/
def lookupScore : GoodnessMap → Station → Option ℚ
  | [], _ => none
  | (k, w) :: rest, st => if k = st then some w else lookupScore rest st

/-- Map read `stationGoodness[station]`: a missing key reads the zero value. -/
def getScore (m : GoodnessMap) (st : Station) : ℚ :=
  (lookupScore m st).getD 0

/-- Map write `stationGoodness[station] = v`. -/
def setScore : GoodnessMap → Station → ℚ → GoodnessMap
  | [], st, v => [(st, v)]
  | (k, w) :: rest, st, v =>
    if k = st then (st, v) :: rest else (k, w) :: setScore rest st v

/-- The discovery body for one returned station (main.go lines 223-230):
only if the station is not already in the map is it added, with 0.5. -/
def ensureTracked (m : GoodnessMap) (st : Station) : GoodnessMap :=
  match lookupScore m st with
  | some _ => m
  | none => (st, 0.5) :: m

/-- The estimator update rule (main.go line 251):
`stationGoodness[station] = stationGoodness[station]*(val+0.3) + 0.05`. -/
def updateGoodness (s v : ℚ) : ℚ :=
  s * (v + 0.3) + 0.05

/-- The update as applied to the map at line 251. -/
def updateScore (m : GoodnessMap) (st : Station) (v : ℚ) : GoodnessMap :=
  setScore m st (updateGoodness (getScore m st) v)

/-- The sampling decision (main.go line 241): `rand.Float32() < goodness`,
with `draw` the uniform draw in [0,1). -/
def sampled (draw score : ℚ) : Bool :=
  draw < score

/-- The message `audiolib.AudioMsg` as constructed at main.go lines 256-262. -/
structure OutboundMessage where
  audio : List Nat
  ts : Int
  freq : Station
  expectedValue : ℚ
  devID : String
deriving DecidableEq, Repr

/-- Result of `rtlsdr.GetAudio` for one station (external collaborator). -/
inductive CaptureResult where
  | ok (audio : List Nat)
  | err (e : String)
deriving DecidableEq, Repr

/-- Result of `m.goodness(audio)` for one clip (external TF session run). -/
inductive ScoreResult where
  | ok (v : ℚ)
  | err (e : String)
deriving DecidableEq, Repr

/-- Result of `conn.publishAudio(msg)` for one message (external bus). -/
inductive PublishResult where
  | ok (partition offset : Int)
  | err (e : String)
deriving DecidableEq, Repr

/-- Outcome of the per-station loop body: either a fatal `panic`, or the loop
moves on with the new map, the message handed to the publisher (if any), and
whether that publish call failed (it is only logged, main.go line 266). -/
inductive StationOutcome where
  | fatal (msg : String)
  | done (m : GoodnessMap) (attempted : Option OutboundMessage)
      (publishFailed : Bool)
deriving DecidableEq, Repr

/-- The message the body handed to the publisher, if any. -/
def StationOutcome.attempted : StationOutcome → Option OutboundMessage
  | .fatal _ => none
  | .done _ a _ => a

/-- The per-station body of the sampling pass (main.go lines 239-269):
draw against the current goodness of the station; if sampled, capture (fatal on
error), score (fatal on error), apply the estimator update, and when the
value exceeds 0.5 construct the message and hand it to the publisher; a
publish error is printed and the loop goes on. -/
def processStation (devID : String) (ts : Int) (m : GoodnessMap)
    (st : Station) (draw : ℚ) (cap : CaptureResult) (sc : ScoreResult)
    (pub : PublishResult) : StationOutcome :=
  if sampled draw (getScore m st) then
    match cap with
    | .err e => .fatal e
    | .ok audio =>
      match sc with
      | .err e => .fatal e
      | .ok val =>
        let m2 := updateScore m st val
        if val > 0.5 then
          let msg : OutboundMessage :=
            { audio := audio, ts := ts, freq := st, expectedValue := val,
              devID := devID }
          match pub with
          | .ok _ _ => .done m2 (some msg) false
          | .err _ => .done m2 (some msg) true
        else
          .done m2 none false
  else
    .done m none false

/-- The nondeterministic per-station environment for one sampling pass: the
uniform draw and the results the three external calls would return. -/
structure StationEnv where
  draw : ℚ
  cap : CaptureResult
  sc : ScoreResult
  pub : PublishResult

/-- One sampling pass (the inner `for station, goodness := range ...` loop),
iterating over the stations in the given order (Go map iteration order is
unspecified), threading the goodness map and collecting the messages handed
to the publisher.  A fatal per-station outcome aborts the whole process. -/
def samplingPass (devID : String) (ts : Int) (env : Station → StationEnv) :
    List Station → GoodnessMap → Except String (GoodnessMap × List OutboundMessage)
  | [], m => .ok (m, [])
  | st :: rest, m =>
    match processStation devID ts m st (env st).draw (env st).cap
        (env st).sc (env st).pub with
    | .fatal e => .error e
    | .done m2 att _ =>
      match samplingPass devID ts env rest m2 with
      | .error e => .error e
      | .ok (m3, msgs) => .ok (m3, att.toList ++ msgs)

/-- Result of `rtlsdr.GetCeilingSignals` (external collaborator). -/
inductive DiscoveryResult where
  | ok (stations : List Station)
  | err (e : String)
deriving DecidableEq, Repr

/-- Outcome of the discovery tick: fatal `panic`, a refresh that records the
new timestamp, or a skip that leaves map and timestamp untouched. -/
inductive TickOutcome where
  | fatal (msg : String)
  | updated (m : GoodnessMap) (lastRefresh : Int)
  | skipped (m : GoodnessMap) (lastRefresh : Int)
deriving DecidableEq, Repr

/-- The duration `5 * time.Minute` in nanoseconds (Go `time.Duration`). -/
def fiveMinutes : Int := 5 * 60 * 1000000000

/-- The discovery tick (main.go lines 215-238): refresh only when more than
five minutes have passed; `panic` on a discovery error; `ensureTracked` every
returned station; `panic` when the map is still empty; only then record the
refresh timestamp `lastStationsRefresh = time.Now()`. -/
def discoveryTick (now lastRefresh : Int) (m : GoodnessMap)
    (disc : DiscoveryResult) : TickOutcome :=
  if now - lastRefresh > fiveMinutes then
    match disc with
    | .err e => .fatal e
    | .ok stations =>
      let m2 := stations.foldl ensureTracked m
      if m2.length < 1 then .fatal "No FM stations. Move the antenna?"
      else .updated m2 now
  else .skipped m lastRefresh

/-- One iteration of the outer `for` loop of `main`: the discovery tick, then
(unless the tick was fatal) a sampling pass over every tracked station. -/
def loopIteration (devID : String) (ts : Int) (now lastRefresh : Int)
    (m : GoodnessMap) (disc : DiscoveryResult) (env : Station → StationEnv) :
    Except String (GoodnessMap × Int × List OutboundMessage) :=
  match discoveryTick now lastRefresh m disc with
  | .fatal e => .error e
  | .updated m2 t2 =>
    match samplingPass devID ts env (m2.map Prod.fst) m2 with
    | .error e => .error e
    | .ok (m3, msgs) => .ok (m3, t2, msgs)
  | .skipped m2 t2 =>
    match samplingPass devID ts env (m2.map Prod.fst) m2 with
    | .error e => .error e
    | .ok (m3, msgs) => .ok (m3, t2, msgs)

/-- A Go runtime panic, as raised by out-of-range string slicing. -/
inductive GoPanic where
  | sliceBounds (idx len : Nat)
deriving DecidableEq, Repr

/-- The credential split in `connect` (main.go lines 138-139):
`username := apiKey[:16]; password := apiKey[16:]`.  Go string slicing
`apiKey[:16]` panics with "slice bounds out of range" when `len(apiKey) < 16`;
otherwise the two slices are the first 16 bytes and the rest. -/
def splitApiKey (apiKey : String) : Except GoPanic (String × String) :=
  if apiKey.length < 16 then .error (.sliceBounds 16 apiKey.length)
  else .ok (apiKey.take 16, apiKey.drop 16)

/-- The score of one station after a sequence of observed values, starting
from the 0.5 assigned at first discovery and applying the line-251 update
once per observation. -/
def scoreAfter (vs : List ℚ) : ℚ :=
  vs.foldl updateGoodness 0.5

/-! Helper lemmas about the association-list map. -/

theorem lookupScore_setScore_self (m : GoodnessMap) (st : Station) (v : ℚ) :
    lookupScore (setScore m st v) st = some v := by
  induction m with
  | nil => simp [setScore, lookupScore]
  | cons kv rest ih =>
    obtain ⟨k, w⟩ := kv
    by_cases h : k = st
    · simp [setScore, lookupScore, h]
    · simp [setScore, lookupScore, h, ih]

theorem foldl_ensureTracked_ne_nil (sts : List Station) (m : GoodnessMap)
    (hm : m ≠ []) : sts.foldl ensureTracked m ≠ [] := by
  induction sts generalizing m with
  | nil => simpa using hm
  | cons st rest ih =>
    have h2 : ensureTracked m st ≠ [] := by
      unfold ensureTracked
      cases h : lookupScore m st <;> simp [hm]
    simpa using ih _ h2

theorem lookupScore_updateScore (m : GoodnessMap) (st : Station) (s v : ℚ)
    (h : lookupScore m st = some s) :
    lookupScore (updateScore m st v) st = some (s * (v + 0.3) + 0.05) := by
  unfold updateScore updateGoodness getScore
  rw [h]
  simpa using lookupScore_setScore_self m st (s * (v + 0.3) + 0.05)

theorem samplingPass_cons (devID : String) (ts : Int)
    (env : Station → StationEnv) (st : Station) (rest : List Station)
    (m : GoodnessMap) :
    samplingPass devID ts env (st :: rest) m =
      match processStation devID ts m st (env st).draw (env st).cap
          (env st).sc (env st).pub with
      | .fatal e => .error e
      | .done m2 att _ =>
        match samplingPass devID ts env rest m2 with
        | .error e => .error e
        | .ok (m3, msgs) => .ok (m3, att.toList ++ msgs) := by
  rfl

theorem foldl_updateGoodness_ge (vs : List ℚ) (s : ℚ) (hs : 0.05 ≤ s)
    (hv : ∀ v ∈ vs, 0 ≤ v) : 0.05 ≤ vs.foldl updateGoodness s := by
  induction vs generalizing s with
  | nil => simpa using hs
  | cons v rest ih =>
    have hv0 : 0 ≤ v := hv v (List.mem_cons_self v rest)
    have hstep : 0.05 ≤ updateGoodness s v := by
      unfold updateGoodness
      have h1 : (0 : ℚ) ≤ s * (v + 0.3) := by
        apply mul_nonneg
        · linarith
        · linarith
      linarith
    have := ih (updateGoodness s v) hstep
      (fun w hw => hv w (List.mem_cons_of_mem v hw))
    simpa using this

/-! Claim theorems. -/

/-- C1: for every tracked station with current score `s` and every scoring
result `v`, the update at main.go line 251 sets the score of the station to
exactly `s*(v+0.3)+0.05`, with no clamping to [0,1] before or after: the
formula holds for arbitrary `s` and `v`, even when the result leaves
[0,1]. -/
theorem c1_update_exact (m : GoodnessMap) (st : Station) (s v : ℚ)
    (h : lookupScore m st = some s) :
    lookupScore (updateScore m st v) st = some (s * (v + 0.3) + 0.05) :=
  lookupScore_updateScore m st s v h

/-- C1 witness: station 100 tracked at score 0.9; observing value 0.9 yields
exactly 0.9*(0.9+0.3)+0.05 = 1.13, which exceeds 1 (no clamping). -/
theorem c1_update_exact_witness :
    lookupScore (updateScore [((100 : ℚ), (0.9 : ℚ))] 100 0.9) 100
      = some 1.13 ∧ (1 : ℚ) < 1.13 := by
  constructor
  · rw [show (1.13 : ℚ) = 0.9 * (0.9 + 0.3) + 0.05 by norm_num]
    exact c1_update_exact [((100 : ℚ), (0.9 : ℚ))] 100 0.9 0.9 rfl
  · norm_num

/-- C4: `ensureTracked` inserts a station with score exactly 0.5 when it is
absent from the map, and leaves the map entirely unchanged when the station
is already present; hence the score of a station is exactly 0.5 right after first
discovery. -/
theorem c4_ensure_tracked (m : GoodnessMap) (st : Station) :
    (lookupScore m st = none →
      lookupScore (ensureTracked m st) st = some 0.5) ∧
    (∀ s, lookupScore m st = some s → ensureTracked m st = m) := by
  constructor
  · intro h
    unfold ensureTracked
    rw [h]
    simp [lookupScore]
  · intro s h
    unfold ensureTracked
    rw [h]

/-- C4 witness: a never-seen station 100 is inserted at exactly 0.5, and
re-discovering station 100 already tracked at 0.7 leaves the map unchanged. -/
theorem c4_ensure_tracked_witness :
    lookupScore (ensureTracked [] 100) 100 = some 0.5 ∧
    ensureTracked [((100 : ℚ), (0.7 : ℚ))] 100 = [((100 : ℚ), (0.7 : ℚ))] := by
  constructor
  · exact (c4_ensure_tracked [] 100).1 rfl
  · exact (c4_ensure_tracked [((100 : ℚ), (0.7 : ℚ))] 100).2 0.7 rfl

/-- C8: with a uniform draw in [0,1), a station is sampled exactly when the
draw is strictly below its score; the sampling decision is monotone in the
score, and any score at least 1 forces sampling on every pass. -/
theorem c8_sampling (draw s1 s2 : ℚ) (h0 : 0 ≤ draw) (h1 : draw < 1) :
    (sampled draw s1 = true ↔ draw < s1) ∧
    (s1 ≤ s2 → sampled draw s1 = true → sampled draw s2 = true) ∧
    (1 ≤ s1 → sampled draw s1 = true) := by
  refine ⟨by simp [sampled], ?_, ?_⟩
  · intro hle hs
    have hd : draw < s1 := by simpa [sampled] using hs
    simp [sampled]
    linarith
  · intro hge
    simp [sampled]
    linarith

/-- C8 witness: with draw 1/2, a score of 2 (≥ 1) forces sampling. -/
theorem c8_sampling_witness : sampled (1/2) 2 = true :=
  (c8_sampling (1/2) 2 2 (by norm_num) (by norm_num)).2.2 (by norm_num)

/-- C9: starting from the insertion score 0.5, as long as every observed
value is non-negative, the score after any sequence of updates stays at
least 0.05; hence the per-pass sampling probability never reaches zero (in
particular the draw 0 always samples such a station). -/
theorem c9_score_lower_bound (vs : List ℚ) (hv : ∀ v ∈ vs, 0 ≤ v) :
    0.05 ≤ scoreAfter vs ∧ sampled 0 (scoreAfter vs) = true := by
  have hbase : (0.05 : ℚ) ≤ 0.5 := by norm_num
  have h := foldl_updateGoodness_ge vs 0.5 hbase hv
  refine ⟨by simpa [scoreAfter] using h, ?_⟩
  simp only [sampled, decide_eq_true_eq]
  have : (0 : ℚ) < 0.05 := by norm_num
  calc (0 : ℚ) < 0.05 := this
    _ ≤ scoreAfter vs := by simpa [scoreAfter] using h

/-- C9 witness: after observing the non-negative values [0, 1], the score is
still at least 0.05 and the station can still be sampled. -/
theorem c9_score_lower_bound_witness :
    0.05 ≤ scoreAfter [0, 1] ∧ sampled 0 (scoreAfter [0, 1]) = true :=
  c9_score_lower_bound [0, 1]
    (by intro v hv
        rcases List.mem_cons.mp hv with rfl | hv2
        · norm_num
        rcases List.mem_cons.mp hv2 with rfl | hv3
        · norm_num
        simp at hv3)

/-- C2: for a sampled station whose capture and scoring succeed, an
`OutboundMessage` is handed to the publisher (regardless of the publish
outcome) exactly when the inferred value strictly exceeds 0.5; at `v = 0.5`
nothing is handed over. -/
theorem c2_publish_iff (devID : String) (ts : Int) (m : GoodnessMap)
    (st : Station) (draw v : ℚ) (audio : List Nat) (pub : PublishResult)
    (h : sampled draw (getScore m st) = true) :
    (processStation devID ts m st draw (.ok audio) (.ok v) pub).attempted =
      if v > 0.5 then
        some { audio := audio, ts := ts, freq := st, expectedValue := v,
               devID := devID }
      else none := by
  unfold processStation
  rw [h]
  by_cases hv : v > 0.5
  · cases pub <;> simp [hv, StationOutcome.attempted]
  · simp [hv, StationOutcome.attempted]

/-- C2 witness: station 100 at score 0.9 sampled with draw 0; scoring 0.9
hands a message to the publisher, while scoring exactly 0.5 hands nothing,
both with a successful publish environment. -/
theorem c2_publish_iff_witness :
    (processStation "org/dev" 7 [((100 : ℚ), (0.9 : ℚ))] 100 0
        (.ok [1, 2]) (.ok 0.9) (.ok 0 0)).attempted =
      some { audio := [1, 2], ts := 7, freq := 100, expectedValue := 0.9,
             devID := "org/dev" } ∧
    (processStation "org/dev" 7 [((100 : ℚ), (0.9 : ℚ))] 100 0
        (.ok [1, 2]) (.ok 0.5) (.ok 0 0)).attempted = none := by
  have hs : sampled 0 (getScore [((100 : ℚ), (0.9 : ℚ))] 100) = true := by
    simp only [sampled, getScore, lookupScore, if_pos rfl, Option.getD_some,
      decide_eq_true_eq]
    norm_num
  constructor
  · rw [c2_publish_iff "org/dev" 7 [((100 : ℚ), (0.9 : ℚ))] 100 0 0.9
      [1, 2] (.ok 0 0) hs]
    norm_num
  · rw [c2_publish_iff "org/dev" 7 [((100 : ℚ), (0.9 : ℚ))] 100 0 0.5
      [1, 2] (.ok 0 0) hs]
    norm_num

/-- C5: when the publish call for a sampled station fails, the pass is not
fatal — it proceeds to the remaining stations with the already-updated map —
and the updated score `s*(v+0.3)+0.05` of the station is retained, not rolled
back. -/
theorem c5_publish_failure (devID : String) (ts : Int) (m : GoodnessMap)
    (st : Station) (draw v s : ℚ) (audio : List Nat) (e : String)
    (rest : List Station) (env : Station → StationEnv)
    (henv : env st = ⟨draw, .ok audio, .ok v, .err e⟩)
    (hs : lookupScore m st = some s)
    (hsam : sampled draw s = true)
    (hv : v > 0.5) :
    samplingPass devID ts env (st :: rest) m =
      (samplingPass devID ts env rest (updateScore m st v)).map
        (fun p => (p.1,
          ({ audio := audio, ts := ts, freq := st, expectedValue := v,
             devID := devID } : OutboundMessage) :: p.2)) ∧
    lookupScore (updateScore m st v) st = some (s * (v + 0.3) + 0.05) := by
  have hget : getScore m st = s := by simp [getScore, hs]
  have hsam2 : sampled draw (getScore m st) = true := by rw [hget]; exact hsam
  constructor
  · have hproc : processStation devID ts m st draw (.ok audio) (.ok v)
        (.err e) =
        .done (updateScore m st v)
          (some { audio := audio, ts := ts, freq := st, expectedValue := v,
                  devID := devID }) true := by
      simp [processStation, hsam2, hv, updateScore]
    rw [samplingPass_cons]
    simp only [henv]
    rw [hproc]
    cases hrec : samplingPass devID ts env rest (updateScore m st v) with
    | error e2 => simp [hrec, Except.map]
    | ok p =>
      obtain ⟨m3, msgs⟩ := p
      simp [hrec, Except.map, Option.toList]
  · exact lookupScore_updateScore m st s v hs

/-- C5 witness: station 100 at score 0.5, draw 0, value 1, failing publish:
the pass is not fatal, the message was handed over, and the retained score is
0.5*(1+0.3)+0.05 = 0.7. -/
theorem c5_publish_failure_witness :
    samplingPass "org/dev" 7
        (fun _ => ⟨0, .ok [1], .ok 1, .err "FAILED to send message"⟩)
        [(100 : ℚ)] [((100 : ℚ), (0.5 : ℚ))] =
      (samplingPass "org/dev" 7
        (fun _ => ⟨0, .ok [1], .ok 1, .err "FAILED to send message"⟩)
        [] (updateScore [((100 : ℚ), (0.5 : ℚ))] 100 1)).map
        (fun p => (p.1,
          ({ audio := [1], ts := 7, freq := 100, expectedValue := 1,
             devID := "org/dev" } : OutboundMessage) :: p.2)) ∧
    lookupScore (updateScore [((100 : ℚ), (0.5 : ℚ))] 100 1) 100 =
      some (0.5 * (1 + 0.3) + 0.05) :=
  c5_publish_failure "org/dev" 7 [((100 : ℚ), (0.5 : ℚ))] 100 0 1 0.5 [1]
    "FAILED to send message" [] _ rfl rfl
    (by simp only [sampled, decide_eq_true_eq]; norm_num) (by norm_num)

/-- C3: loading any graph containing at least one operation type outside the
whitelist fails with the unsafe-OPs rejection, and the reported list contains
every distinct offending operation type exactly once (it is duplicate-free
and its members are precisely the non-whitelisted types of the graph). -/
theorem c3_whitelist (g : GraphDef) (t0 : String) (h1 : t0 ∈ g.ops)
    (h2 : opIsSafe t0 = false) :
    ∃ l, newModel g = .error (.badOPs l) ∧ l.Nodup ∧
      ∀ t, t ∈ l ↔ (t ∈ g.ops ∧ opIsSafe t = false) := by
  refine ⟨collectOffending g.ops, ?_, ?_, ?_⟩
  · have hmem : t0 ∈ collectOffending g.ops := by
      unfold collectOffending
      rw [List.mem_dedup, List.mem_filter]
      exact ⟨h1, by simp [h2]⟩
    have hne : (collectOffending g.ops).isEmpty = false := by
      cases hl : collectOffending g.ops with
      | nil => rw [hl] at hmem; simp at hmem
      | cons a as => rfl
    unfold newModel
    simp [hne]
  · unfold collectOffending
    exact List.nodup_dedup _
  · intro t
    unfold collectOffending
    rw [List.mem_dedup, List.mem_filter]
    simp

/-- C3 witness: a graph with op types [Const, ReadFile, WriteFile, ReadFile]
is rejected, the reported list being duplicate-free and holding exactly the
offending types ReadFile and WriteFile. -/
theorem c3_whitelist_witness :
    ∃ l, newModel ⟨["Const", "ReadFile", "WriteFile", "ReadFile"],
        true, true⟩ = .error (.badOPs l) ∧ l.Nodup ∧
      ∀ t, t ∈ l ↔ (t ∈ ["Const", "ReadFile", "WriteFile", "ReadFile"] ∧
        opIsSafe t = false) :=
  c3_whitelist ⟨["Const", "ReadFile", "WriteFile", "ReadFile"], true, true⟩
    "ReadFile" (by simp) (by decide)

/-- C6: when discovery is due and returns an empty station list while the
tracked map is empty, the process hits the fatal "No FM stations" panic and
the iteration performs no sampling pass; with a non-empty tracked map an
empty discovery result is not fatal (the tick records the timestamp and the
map is unchanged). -/
theorem c6_no_stations (devID : String) (ts now last : Int) (m : GoodnessMap)
    (env : Station → StationEnv) (hdue : now - last > fiveMinutes) :
    discoveryTick now last [] (.ok []) =
      .fatal "No FM stations. Move the antenna?" ∧
    loopIteration devID ts now last [] (.ok []) env =
      .error "No FM stations. Move the antenna?" ∧
    (m ≠ [] → discoveryTick now last m (.ok []) = .updated m now) := by
  have h1 : discoveryTick now last [] (.ok []) =
      .fatal "No FM stations. Move the antenna?" := by
    unfold discoveryTick
    rw [if_pos hdue]
    simp
  refine ⟨h1, ?_, ?_⟩
  · unfold loopIteration
    rw [h1]
  · intro hm
    unfold discoveryTick
    rw [if_pos hdue]
    have hlen : ¬ (m.length < 1) := by
      cases m with
      | nil => exact absurd rfl hm
      | cons a as => simp
    simp [List.foldl, hlen]

/-- C6 witness: with discovery due, an empty discovery result on an empty map
is the fatal "No FM stations" condition, while on a map already tracking
station 100 it is not fatal and records the timestamp. -/
theorem c6_no_stations_witness :
    discoveryTick 301000000000 0 [] (.ok []) =
      .fatal "No FM stations. Move the antenna?" ∧
    discoveryTick 301000000000 0 [((100 : ℚ), (0.5 : ℚ))] (.ok []) =
      .updated [((100 : ℚ), (0.5 : ℚ))] 301000000000 :=
  ⟨(c6_no_stations "org/dev" 0 301000000000 0 [((100 : ℚ), (0.5 : ℚ))]
      (fun _ => ⟨0, .ok [], .ok 0, .ok 0 0⟩) (by decide)).1,
   (c6_no_stations "org/dev" 0 301000000000 0 [((100 : ℚ), (0.5 : ℚ))]
      (fun _ => ⟨0, .ok [], .ok 0, .ok 0 0⟩) (by decide)).2.2 (by simp)⟩

/-- C7 counterexample: with a non-empty tracked map and discovery due (301 s
elapsed), a discovery error makes the tick fatal — `panic(err)` runs before
`lastStationsRefresh = time.Now()` — so no outcome recording the timestamp
exists, contradicting the claim that the timestamp is recorded on a
discovery-error outcome. -/
theorem c7_counterexample :
    discoveryTick 301000000000 0 [((100 : ℚ), (0.5 : ℚ))]
        (.err "connection refused") = .fatal "connection refused" ∧
    ¬ ∃ m2, discoveryTick 301000000000 0 [((100 : ℚ), (0.5 : ℚ))]
        (.err "connection refused") = .updated m2 301000000000 := by
  have h1 : discoveryTick 301000000000 0 [((100 : ℚ), (0.5 : ℚ))]
      (.err "connection refused") = .fatal "connection refused" := by
    unfold discoveryTick
    rw [if_pos (by decide)]
  refine ⟨h1, ?_⟩
  rintro ⟨m2, h2⟩
  rw [h1] at h2
  exact TickOutcome.noConfusion h2

/-- C7 amended: discovery is skipped on every iteration at most five minutes
after the previous discovery (hence on every one strictly earlier); when
due, the timestamp `now` is recorded on every outcome the process survives —
any successful discovery result, including an empty station list, as long as
the tracked map ends up non-empty — while a discovery error is fatal (the
timestamp is not recorded, but the process stops, so a failed discovery is
never followed by an immediate re-discovery, or by any discovery at all). -/
theorem c7_timestamp_recorded (now last : Int) (m : GoodnessMap)
    (disc : DiscoveryResult) (e : String) (sts : List Station) :
    (now - last ≤ fiveMinutes →
      discoveryTick now last m disc = .skipped m last) ∧
    (now - last > fiveMinutes →
      discoveryTick now last m (.err e) = .fatal e) ∧
    (now - last > fiveMinutes → m ≠ [] →
      discoveryTick now last m (.ok sts) =
        .updated (sts.foldl ensureTracked m) now) := by
  refine ⟨?_, ?_, ?_⟩
  · intro h
    unfold discoveryTick
    rw [if_neg (not_lt.mpr h)]
  · intro h
    unfold discoveryTick
    rw [if_pos h]
  · intro h hm
    unfold discoveryTick
    rw [if_pos h]
    have hne := foldl_ensureTracked_ne_nil sts m hm
    have hlen : ¬ ((sts.foldl ensureTracked m).length < 1) := by
      cases hl : sts.foldl ensureTracked m with
      | nil => exact absurd hl hne
      | cons a as => simp
    simp [hlen]

/-- C7 amended witness: 100 ns after a refresh the tick is skipped; 301 s
after, a discovery error is fatal, and an empty discovery result over a
non-empty map records the new timestamp. -/
theorem c7_timestamp_recorded_witness :
    discoveryTick 100 0 [((100 : ℚ), (0.5 : ℚ))] (.ok [101]) =
      .skipped [((100 : ℚ), (0.5 : ℚ))] 0 ∧
    discoveryTick 301000000000 0 [((100 : ℚ), (0.5 : ℚ))] (.err "boom") =
      .fatal "boom" ∧
    discoveryTick 301000000000 0 [((100 : ℚ), (0.5 : ℚ))] (.ok []) =
      .updated (([] : List Station).foldl ensureTracked
        [((100 : ℚ), (0.5 : ℚ))]) 301000000000 :=
  ⟨(c7_timestamp_recorded 100 0 [((100 : ℚ), (0.5 : ℚ))] (.ok [101]) "boom"
      []).1 (by decide),
   (c7_timestamp_recorded 301000000000 0 [((100 : ℚ), (0.5 : ℚ))]
      (.err "boom") "boom" []).2.1 (by decide),
   (c7_timestamp_recorded 301000000000 0 [((100 : ℚ), (0.5 : ℚ))]
      (.err "boom") "boom" []).2.2 (by decide) (by simp)⟩

/-- C10: splitting MSGHUB_API_KEY in `connect`: a key shorter than 16 bytes
makes the slice `apiKey[:16]` raise an uncategorized slice-bounds runtime
panic rather than a categorized error, while for a key of length at least 16
the username is exactly the first 16 characters and the password exactly the
remainder (whose concatenation restores the key). -/
theorem c10_key_split (apiKey : String) :
    (apiKey.length < 16 →
      splitApiKey apiKey = .error (.sliceBounds 16 apiKey.length)) ∧
    (16 ≤ apiKey.length →
      splitApiKey apiKey = .ok (apiKey.take 16, apiKey.drop 16) ∧
      (apiKey.take 16).length = 16 ∧
      apiKey.take 16 ++ apiKey.drop 16 = apiKey) := by
  constructor
  · intro h
    unfold splitApiKey
    rw [if_pos h]
  · intro h
    refine ⟨?_, ?_, ?_⟩
    · unfold splitApiKey
      rw [if_neg (not_lt.mpr h)]
    · rw [String.take_eq]
      show (apiKey.data.take 16).length = 16
      rw [List.length_take]
      exact Nat.min_eq_left h
    · apply String.ext
      rw [String.take_eq, String.drop_eq]
      show apiKey.data.take 16 ++ apiKey.data.drop 16 = apiKey.data
      exact List.take_append_drop 16 apiKey.data

/-- C10 witness: the 5-byte key "short" panics with slice bounds [16 > 5],
while an 18-byte key splits into its first 16 bytes and 2-byte remainder. -/
theorem c10_key_split_witness :
    splitApiKey "short" = .error (.sliceBounds 16 "short".length) ∧
    splitApiKey "0123456789abcdefPW" =
      .ok ("0123456789abcdefPW".take 16, "0123456789abcdefPW".drop 16) ∧
    ("0123456789abcdefPW".take 16).length = 16 ∧
    "0123456789abcdefPW".take 16 ++ "0123456789abcdefPW".drop 16 =
      "0123456789abcdefPW" :=
  ⟨(c10_key_split "short").1 (by decide),
   (c10_key_split "0123456789abcdefPW").2 (by decide)⟩

end SDRMsghub
